import Mathlib

/-!
Shallow embedding of the OTP-gated authentication backend
(backend/server.py, backend/services/otp_service.py,
backend/services/rate_limiter.py, backend/core/security.py,
backend/core/config.py) and proofs of the specified properties.

Modelling conventions:
* timestamps are natural numbers (seconds); the Python comparison
  `datetime.now(timezone.utc) > expires_at` becomes `expires_at < now`;
* the MongoDB collections are association lists in document order:
  `find_one` is first match, `insert_one` appends, `delete_one` /
  `update_one` by `_id` remove / rewrite the matched element in place;
* cryptographic digests (SHA-256 of OTP codes and of refresh tokens,
  bcrypt of passwords) are opaque one-way functions: every definition is
  parameterised over the digest function, and theorems that need
  collision-freeness take it as an explicit hypothesis;
* randomness (the generated 6-digit code) and I/O failure points are
  passed in as explicit arguments resolving the nondeterminism.
-/

namespace Auth

/-! Configuration defaults, from backend/core/config.py. -/

def OTP_EXPIRE_MINUTES : Nat := 5

def OTP_MAX_ATTEMPTS : Nat := 3

def ACCESS_TOKEN_EXPIRE_MINUTES : Nat := 15

def REFRESH_TOKEN_EXPIRE_DAYS : Nat := 7

/-! ## OTP lifecycle (backend/services/otp_service.py)

An `OTPRec` is the document stored in the `otps` collection (see
`otp_doc` in `create_and_send_otp`); `otp_hash` is the SHA-256 digest of
the 6-digit code, represented abstractly by a type `β`. -/

structure OTPRec (β : Type) where
  target : String
  otp_hash : β
  purpose : String
  attempts : Nat
  created_at : Nat
  expires_at : Nat
  deriving DecidableEq

variable {β : Type} [DecidableEq β]

/-- Result of `OTPService.verify_otp`, one constructor per return path. -/
inductive OtpResult where
  | notFound
  | expired
  | attemptsExhausted
  | success
  | invalid (remaining : Nat)
  deriving DecidableEq

/-- The query filter used by both `find_one` and `delete_many`:
document matches the given target and purpose. -/
def otpFor (target purpose : String) (r : OTPRec β) : Bool :=
  r.target == target && r.purpose == purpose

/-- Embedding of `OTPService.verify_otp`. Walks the collection for the
first document matching (target, purpose) — `find_one` — then applies the
expiry check, the attempts check and the digest comparison, acting on that
document by `_id`. Returns the result together with the new collection. -/
def verify_otp (hashO : String → β) (now : Nat) (target code purpose : String) :
    List (OTPRec β) → OtpResult × List (OTPRec β)
  | [] => (.notFound, [])
  | r :: rest =>
    if otpFor target purpose r then
      if r.expires_at < now then (.expired, rest)
      else if OTP_MAX_ATTEMPTS ≤ r.attempts then (.attemptsExhausted, rest)
      else if hashO code = r.otp_hash then (.success, rest)
      else (.invalid (OTP_MAX_ATTEMPTS - (r.attempts + 1)),
            { r with attempts := r.attempts + 1 } :: rest)
    else
      let p := verify_otp hashO now target code purpose rest
      (p.1, r :: p.2)

/-- Where `OTPService.create_and_send_otp` can fail: it succeeds
(`ok`), or an exception interrupts it before `delete_many`, between
`delete_many` and `insert_one`, or after `insert_one` (the delivery
step). The mock providers never raise, but the store calls can. -/
inductive OtpIssueOutcome where
  | ok
  | failBeforeStore
  | failAfterDelete
  | failAfterInsert
  deriving DecidableEq

/-- The document inserted by `create_and_send_otp`. -/
def newOtpRec (hashO : String → β) (now : Nat) (target purpose code : String) :
    OTPRec β :=
  { target := target, otp_hash := hashO code, purpose := purpose,
    attempts := 0, created_at := now,
    expires_at := now + OTP_EXPIRE_MINUTES * 60 }

/-- Embedding of `OTPService.create_and_send_otp`: generates a code
(passed in as `code`), deletes every existing document for
(target, purpose), inserts the fresh document with `attempts = 0` and a
5-minute expiry, then hands the code to the delivery channel. Returns
the success flag and the new collection; `outcome` resolves where an
exception, if any, interrupts the call. -/
def create_and_send_otp (hashO : String → β) (now : Nat) (target purpose code : String)
    (s : List (OTPRec β)) (outcome : OtpIssueOutcome) : Bool × List (OTPRec β) :=
  match outcome with
  | .failBeforeStore => (false, s)
  | .failAfterDelete => (false, s.filter fun r => !(otpFor target purpose r))
  | .failAfterInsert =>
      (false, (s.filter fun r => !(otpFor target purpose r))
                ++ [newOtpRec hashO now target purpose code])
  | .ok =>
      (true, (s.filter fun r => !(otpFor target purpose r))
                ++ [newOtpRec hashO now target purpose code])

/-! Helper lemmas about `verify_otp`. -/

theorem verify_otp_nomatch (hashO : String → β) (now : Nat) (target code purpose : String)
    (s : List (OTPRec β)) (h : ∀ r ∈ s, otpFor target purpose r = false) :
    verify_otp hashO now target code purpose s = (.notFound, s) := by
  induction s with
  | nil => simp [verify_otp]
  | cons r rest ih =>
    have hr := h r (List.mem_cons_self r rest)
    have hrest : ∀ r' ∈ rest, otpFor target purpose r' = false :=
      fun r' hr' => h r' (List.mem_cons_of_mem r hr')
    simp [verify_otp, hr, ih hrest]

theorem verify_otp_append (hashO : String → β) (now : Nat) (target code purpose : String)
    (pre : List (OTPRec β)) (hpre : ∀ r ∈ pre, otpFor target purpose r = false)
    (s : List (OTPRec β)) :
    verify_otp hashO now target code purpose (pre ++ s) =
      ((verify_otp hashO now target code purpose s).1,
        pre ++ (verify_otp hashO now target code purpose s).2) := by
  induction pre with
  | nil => simp
  | cons r rest ih =>
    have hr := hpre r (List.mem_cons_self r rest)
    have hrest : ∀ r' ∈ rest, otpFor target purpose r' = false :=
      fun r' hr' => hpre r' (List.mem_cons_of_mem r hr')
    simp [verify_otp, hr, ih hrest]

theorem verify_otp_head (hashO : String → β) (now : Nat) (target code purpose : String)
    (r : OTPRec β) (rest : List (OTPRec β)) (hr : otpFor target purpose r = true) :
    verify_otp hashO now target code purpose (r :: rest) =
      if r.expires_at < now then (.expired, rest)
      else if OTP_MAX_ATTEMPTS ≤ r.attempts then (.attemptsExhausted, rest)
      else if hashO code = r.otp_hash then (.success, rest)
      else (.invalid (OTP_MAX_ATTEMPTS - (r.attempts + 1)),
            { r with attempts := r.attempts + 1 } :: rest) := by
  simp [verify_otp, hr]

/-- C2: on `verify(target, code, purpose)` with the stored collection
split as `pre ++ r :: post` where `r` is the first record for
(target, purpose): if no record exists the call fails with NotFound and
changes nothing; if `now > expires_at` it deletes the record and fails
with Expired; else if `attempts >= OTP_MAX_ATTEMPTS` it deletes the
record and fails with AttemptsExhausted; else if the digest of `code`
equals `code_hash` it deletes the record and succeeds; else it
increments `attempts` by one in place and fails with Invalid, reporting
`OTP_MAX_ATTEMPTS - attempts` remaining for the incremented value of
`attempts`. -/
theorem C2_verify_otp_semantics (hashO : String → β) (now : Nat)
    (target code purpose : String) (pre post : List (OTPRec β)) (r : OTPRec β)
    (hpre : ∀ r' ∈ pre, otpFor target purpose r' = false)
    (hr : otpFor target purpose r = true) :
    (∀ s : List (OTPRec β), (∀ r' ∈ s, otpFor target purpose r' = false) →
      verify_otp hashO now target code purpose s = (.notFound, s)) ∧
    (r.expires_at < now →
      verify_otp hashO now target code purpose (pre ++ r :: post) = (.expired, pre ++ post)) ∧
    (now ≤ r.expires_at → OTP_MAX_ATTEMPTS ≤ r.attempts →
      verify_otp hashO now target code purpose (pre ++ r :: post) =
        (.attemptsExhausted, pre ++ post)) ∧
    (now ≤ r.expires_at → r.attempts < OTP_MAX_ATTEMPTS → hashO code = r.otp_hash →
      verify_otp hashO now target code purpose (pre ++ r :: post) = (.success, pre ++ post)) ∧
    (now ≤ r.expires_at → r.attempts < OTP_MAX_ATTEMPTS → hashO code ≠ r.otp_hash →
      verify_otp hashO now target code purpose (pre ++ r :: post) =
        (.invalid (OTP_MAX_ATTEMPTS - (r.attempts + 1)),
          pre ++ { r with attempts := r.attempts + 1 } :: post)) := by
  refine ⟨fun s hs => verify_otp_nomatch hashO now target code purpose s hs, ?_, ?_, ?_, ?_⟩
  · intro hexp
    rw [verify_otp_append hashO now target code purpose pre hpre,
      verify_otp_head hashO now target code purpose r post hr]
    simp [hexp]
  · intro hexp hatt
    rw [verify_otp_append hashO now target code purpose pre hpre,
      verify_otp_head hashO now target code purpose r post hr]
    simp [not_lt.mpr hexp, hatt]
  · intro hexp hatt hcode
    rw [verify_otp_append hashO now target code purpose pre hpre,
      verify_otp_head hashO now target code purpose r post hr]
    simp [not_lt.mpr hexp, not_le.mpr hatt, hcode]
  · intro hexp hatt hcode
    rw [verify_otp_append hashO now target code purpose pre hpre,
      verify_otp_head hashO now target code purpose r post hr]
    simp [not_lt.mpr hexp, not_le.mpr hatt, hcode]

/-- Concrete OTP record used by the witnesses. -/
def otpRecW : OTPRec String :=
  { target := "a@x.com", otp_hash := "111111", purpose := "signup",
    attempts := 0, created_at := 0, expires_at := 300 }

/-- Witness for C2 at a concrete record: a wrong code at time 10
increments the attempts counter in place and reports 2 attempts left. -/
theorem C2_witness :
    verify_otp (fun s => s) 10 "a@x.com" "222222" "signup" ([] ++ otpRecW :: []) =
      (.invalid 2, [] ++ { otpRecW with attempts := 1 } :: []) :=
  (C2_verify_otp_semantics (fun s => s) 10 "a@x.com" "222222" "signup" [] [] otpRecW
      (by simp) (by decide)).2.2.2.2 (by decide) (by decide) (by decide)

omit [DecidableEq β] in
theorem filter_otpFor_false (target purpose : String) (s : List (OTPRec β)) :
    ∀ r ∈ s.filter (fun r => !(otpFor target purpose r)), otpFor target purpose r = false := by
  intro r hrmem
  have := (List.mem_filter.mp hrmem).2
  simpa using this

/-- C3: issuing a second OTP for the same (target, purpose) supersedes
the first. After two issue calls, exactly one record for the pair is
live; verifying the first code while the second is unexpired fails with
Invalid, and at no time can the first code verify successfully. The
hypothesis says the two codes have distinct digests (SHA-256 treated as
collision-free). -/
theorem C3_reissue_supersedes (hashO : String → β)
    (s : List (OTPRec β)) (target purpose c₁ c₂ : String) (now₁ now₂ : Nat)
    (hh : hashO c₁ ≠ hashO c₂) :
    ((create_and_send_otp hashO now₂ target purpose c₂
        (create_and_send_otp hashO now₁ target purpose c₁ s .ok).2 .ok).2.countP
          (fun r => otpFor target purpose r) = 1) ∧
    (∀ now', now' ≤ now₂ + OTP_EXPIRE_MINUTES * 60 →
      (verify_otp hashO now' target c₁ purpose
        (create_and_send_otp hashO now₂ target purpose c₂
          (create_and_send_otp hashO now₁ target purpose c₁ s .ok).2 .ok).2).1 =
        .invalid (OTP_MAX_ATTEMPTS - 1)) ∧
    (∀ now', (verify_otp hashO now' target c₁ purpose
        (create_and_send_otp hashO now₂ target purpose c₂
          (create_and_send_otp hashO now₁ target purpose c₁ s .ok).2 .ok).2).1 ≠
        .success) := by
  have hnew : otpFor target purpose (newOtpRec hashO now₂ target purpose c₂) = true := by
    simp [otpFor, newOtpRec]
  have hs₂ : (create_and_send_otp hashO now₂ target purpose c₂
      (create_and_send_otp hashO now₁ target purpose c₁ s .ok).2 .ok).2 =
      (s.filter fun r => !(otpFor target purpose r))
        ++ [newOtpRec hashO now₂ target purpose c₂] := by
    simp only [create_and_send_otp]
    congr 1
    rw [List.filter_append]
    have h1 : ((s.filter fun r => !(otpFor target purpose r)).filter
        fun r => !(otpFor target purpose r)) = s.filter fun r => !(otpFor target purpose r) :=
      List.filter_eq_self.mpr (by
        intro a ha
        simpa using filter_otpFor_false target purpose s a ha)
    have h2 : ([newOtpRec hashO now₁ target purpose c₁].filter
        fun r => !(otpFor target purpose r)) = [] := by
      simp [otpFor, newOtpRec]
    rw [h1, h2, List.append_nil]
  rw [hs₂]
  have hpre := filter_otpFor_false target purpose s
  refine ⟨?_, ?_, ?_⟩
  · rw [List.countP_append]
    have hz : ((s.filter fun r => !(otpFor target purpose r)).countP
        fun r => otpFor target purpose r) = 0 := by
      rw [List.countP_eq_zero]
      intro a ha
      simp [hpre a ha]
    simp [hz, hnew]
  · intro now' hle
    rw [verify_otp_append hashO now' target c₁ purpose _ hpre,
      verify_otp_head hashO now' target c₁ purpose _ [] hnew]
    have hexp : ¬ now₂ + OTP_EXPIRE_MINUTES * 60 < now' := by omega
    simp [newOtpRec, OTP_MAX_ATTEMPTS, hh, hexp]
  · intro now'
    rw [verify_otp_append hashO now' target c₁ purpose _ hpre,
      verify_otp_head hashO now' target c₁ purpose _ [] hnew]
    by_cases hexp : now₂ + OTP_EXPIRE_MINUTES * 60 < now'
    · simp [newOtpRec, hexp]
    · simp [newOtpRec, OTP_MAX_ATTEMPTS, hh, hexp]

/-- Witness for C3 on an initially empty store: after issuing code
111111 then code 222222 for the same pair, one live record remains and
the first code no longer verifies. -/
theorem C3_witness :
    ((create_and_send_otp (fun s => s) 40 "a@x.com" "signup" "222222"
        (create_and_send_otp (fun s => s) 0 "a@x.com" "signup" "111111" [] .ok).2 .ok).2.countP
          (fun r => otpFor "a@x.com" "signup" r) = 1) ∧
    (verify_otp (fun s => s) 50 "a@x.com" "111111" "signup"
        (create_and_send_otp (fun s => s) 40 "a@x.com" "signup" "222222"
          (create_and_send_otp (fun s => s) 0 "a@x.com" "signup" "111111" [] .ok).2 .ok).2).1 ≠
      .success := by
  have h := C3_reissue_supersedes (fun s => s) [] "a@x.com" "signup" "111111" "222222" 0 40
    (by decide)
  exact ⟨h.1, h.2.2 50⟩

/-- C4: starting from a record with `attempts = 0` that stays unexpired
across all four calls, three wrong codes followed by the correct code
yield Invalid (2, 1 then 0 attempts remaining) and finally
AttemptsExhausted with the record deleted — the increment persisted by
each failed call is what the next call's checks observe, so the correct
code never succeeds. -/
theorem C4_attempts_exhaust (hashO : String → β)
    (pre post : List (OTPRec β)) (r : OTPRec β) (target purpose c w₁ w₂ w₃ : String)
    (n₁ n₂ n₃ n₄ : Nat)
    (hpre : ∀ r' ∈ pre, otpFor target purpose r' = false)
    (hr : otpFor target purpose r = true)
    (ha : r.attempts = 0)
    (hw₁ : hashO w₁ ≠ r.otp_hash) (hw₂ : hashO w₂ ≠ r.otp_hash) (hw₃ : hashO w₃ ≠ r.otp_hash)
    (_hc : hashO c = r.otp_hash)
    (he₁ : n₁ ≤ r.expires_at) (he₂ : n₂ ≤ r.expires_at) (he₃ : n₃ ≤ r.expires_at)
    (he₄ : n₄ ≤ r.expires_at) :
    (verify_otp hashO n₁ target w₁ purpose (pre ++ r :: post)).1 = .invalid 2 ∧
    (verify_otp hashO n₂ target w₂ purpose
      (verify_otp hashO n₁ target w₁ purpose (pre ++ r :: post)).2).1 = .invalid 1 ∧
    (verify_otp hashO n₃ target w₃ purpose
      (verify_otp hashO n₂ target w₂ purpose
        (verify_otp hashO n₁ target w₁ purpose (pre ++ r :: post)).2).2).1 = .invalid 0 ∧
    verify_otp hashO n₄ target c purpose
      (verify_otp hashO n₃ target w₃ purpose
        (verify_otp hashO n₂ target w₂ purpose
          (verify_otp hashO n₁ target w₁ purpose (pre ++ r :: post)).2).2).2 =
      (.attemptsExhausted, pre ++ post) := by
  have hr1 : otpFor target purpose { r with attempts := 1 } = true := by
    simpa [otpFor] using hr
  have hr2 : otpFor target purpose { r with attempts := 2 } = true := by
    simpa [otpFor] using hr
  have hr3 : otpFor target purpose { r with attempts := 3 } = true := by
    simpa [otpFor] using hr
  have e₁ : verify_otp hashO n₁ target w₁ purpose (pre ++ r :: post) =
      (.invalid 2, pre ++ { r with attempts := 1 } :: post) := by
    rw [verify_otp_append hashO n₁ target w₁ purpose pre hpre,
      verify_otp_head hashO n₁ target w₁ purpose r post hr]
    have hexp : ¬ r.expires_at < n₁ := not_lt.mpr he₁
    have hatt : ¬ OTP_MAX_ATTEMPTS ≤ r.attempts := by
      simp [OTP_MAX_ATTEMPTS, ha]
    simp [hexp, hatt, hw₁, ha, OTP_MAX_ATTEMPTS]
  have e₂ : verify_otp hashO n₂ target w₂ purpose (pre ++ { r with attempts := 1 } :: post) =
      (.invalid 1, pre ++ { r with attempts := 2 } :: post) := by
    rw [verify_otp_append hashO n₂ target w₂ purpose pre hpre,
      verify_otp_head hashO n₂ target w₂ purpose _ post hr1]
    have hexp : ¬ ({ r with attempts := 1 } : OTPRec β).expires_at < n₂ := not_lt.mpr he₂
    simp only [OTP_MAX_ATTEMPTS] at *
    simp [hexp, hw₂]
  have e₃ : verify_otp hashO n₃ target w₃ purpose (pre ++ { r with attempts := 2 } :: post) =
      (.invalid 0, pre ++ { r with attempts := 3 } :: post) := by
    rw [verify_otp_append hashO n₃ target w₃ purpose pre hpre,
      verify_otp_head hashO n₃ target w₃ purpose _ post hr2]
    have hexp : ¬ ({ r with attempts := 2 } : OTPRec β).expires_at < n₃ := not_lt.mpr he₃
    simp only [OTP_MAX_ATTEMPTS] at *
    simp [hexp, hw₃]
  have e₄ : verify_otp hashO n₄ target c purpose (pre ++ { r with attempts := 3 } :: post) =
      (.attemptsExhausted, pre ++ post) := by
    rw [verify_otp_append hashO n₄ target c purpose pre hpre,
      verify_otp_head hashO n₄ target c purpose _ post hr3]
    have hexp : ¬ ({ r with attempts := 3 } : OTPRec β).expires_at < n₄ := not_lt.mpr he₄
    simp only [OTP_MAX_ATTEMPTS] at *
    simp [hexp]
  rw [e₁]
  simp only []
  rw [e₂]
  simp only []
  rw [e₃]
  simp only []
  rw [e₄]
  simp

/-- Witness for C4: the concrete record, three wrong codes at times
10, 20, 30, then the right code at time 40. -/
theorem C4_witness :
    verify_otp (fun s => s) 40 "a@x.com" "111111" "signup"
      (verify_otp (fun s => s) 30 "a@x.com" "000003" "signup"
        (verify_otp (fun s => s) 20 "a@x.com" "000002" "signup"
          (verify_otp (fun s => s) 10 "a@x.com" "000001" "signup"
            ([] ++ otpRecW :: [])).2).2).2 =
      (.attemptsExhausted, [] ++ []) :=
  (C4_attempts_exhaust (fun s => s) [] [] otpRecW "a@x.com" "signup"
      "111111" "000001" "000002" "000003" 10 20 30 40
      (by simp) (by decide) (by decide)
      (by decide) (by decide) (by decide) (by decide)
      (by decide) (by decide) (by decide) (by decide)).2.2.2

/-! ## Rate limiter (backend/services/rate_limiter.py)

The Redis counter store is an association list of
(key, count, ttl in seconds) entries; `connected = false` models
`self.redis_client` being None, and `failing = true` models the store
operations raising (each branch of `check_rate_limit` performs its
writes last, so a raise observed by the `except` arm leaves the store
as it was). -/

structure RLState where
  connected : Bool
  failing : Bool
  store : List (String × Nat × Nat)
  deriving DecidableEq

/-- Redis GET of a counter: value of the entry for the key, if any. -/
def rget : List (String × Nat × Nat) → String → Option Nat
  | [], _ => none
  | e :: rest, k => if e.1 = k then some e.2.1 else rget rest k

/-- Removal of every entry for a key (SETEX overwrites the key). -/
def rdel : List (String × Nat × Nat) → String → List (String × Nat × Nat)
  | [], _ => []
  | e :: rest, k => if e.1 = k then rdel rest k else e :: rdel rest k

/-- Redis SETEX key ttl value: replaces any entry for the key. -/
def rsetex (s : List (String × Nat × Nat)) (k : String) (ttl v : Nat) :
    List (String × Nat × Nat) :=
  (k, v, ttl) :: rdel s k

/-- Redis INCR: adds one to the counter, leaving its ttl untouched. -/
def rincr : List (String × Nat × Nat) → String → List (String × Nat × Nat)
  | [], _ => []
  | e :: rest, k => (if e.1 = k then (e.1, e.2.1 + 1, e.2.2) else e) :: rincr rest k

/-- Embedding of `RateLimiter.check_rate_limit`. Returns
((is_allowed, remaining_attempts), new state); remaining is an integer
exactly as in the source, where `limit - 1` can be negative. -/
def check_rate_limit (st : RLState) (key : String) (limit : Nat) (window_minutes : Nat) :
    (Bool × Int) × RLState :=
  if st.connected = false then ((true, (limit : Int)), st)
  else if st.failing = true then ((true, (limit : Int)), st)
  else
    match rget st.store key with
    | none =>
        ((true, (limit : Int) - 1),
          { st with store := rsetex st.store key (window_minutes * 60) 1 })
    | some current =>
        if limit ≤ current then ((false, 0), st)
        else ((true, (limit : Int) - current - 1), { st with store := rincr st.store key })

theorem rget_rdel (s : List (String × Nat × Nat)) (k k' : String) (h : k' ≠ k) :
    rget (rdel s k) k' = rget s k' := by
  induction s with
  | nil => rfl
  | cons e rest ih =>
    by_cases he : e.1 = k
    · simp [rdel, rget, he, Ne.symm h, ih]
    · by_cases hek : e.1 = k'
      · simp [rdel, rget, he, hek, h]
      · simp [rdel, rget, he, hek, ih]

theorem rget_rsetex_self (s : List (String × Nat × Nat)) (k : String) (ttl v : Nat) :
    rget (rsetex s k ttl v) k = some v := by
  simp [rget, rsetex]

theorem rget_rsetex_other (s : List (String × Nat × Nat)) (k k' : String) (ttl v : Nat)
    (h : k' ≠ k) : rget (rsetex s k ttl v) k' = rget s k' := by
  simp only [rsetex, rget]
  rw [if_neg (fun hk => h hk.symm)]
  exact rget_rdel s k k' h

theorem rget_rincr_self (s : List (String × Nat × Nat)) (k : String) :
    rget (rincr s k) k = (rget s k).map (fun c => c + 1) := by
  induction s with
  | nil => rfl
  | cons e rest ih =>
    by_cases he : e.1 = k
    · simp [rincr, rget, he]
    · simp [rincr, rget, he, ih]

theorem rget_rincr_other (s : List (String × Nat × Nat)) (k k' : String) (h : k' ≠ k) :
    rget (rincr s k) k' = rget s k' := by
  induction s with
  | nil => rfl
  | cons e rest ih =>
    by_cases he : e.1 = k
    · simp [rincr, rget, he, Ne.symm h, ih]
    · by_cases hek : e.1 = k'
      · simp [rincr, rget, he, hek, h]
      · simp [rincr, rget, he, hek, ih]

/-- One rate-limit check, keeping only the state — used to chain calls. -/
def rlStep (key : String) (limit window_minutes : Nat) (st : RLState) : RLState :=
  (check_rate_limit st key limit window_minutes).2

/-- C6: with the counter store reachable, the limiter does fixed-window
counting. The first call for a key sets the counter to 1 with a
time-to-live of one window and returns (true, limit-1); below the limit
a call increments the counter and returns (true, limit-count-1); at or
above the limit it returns (false, 0) and changes nothing. With
limit 5, the 6th call in a window for a key is blocked with (false, 0),
and no call for one key ever moves another key's counter. -/
theorem C6_fixed_window (st : RLState) (key : String) (limit window_minutes : Nat)
    (hc : st.connected = true) (hf : st.failing = false) :
    (rget st.store key = none →
      check_rate_limit st key limit window_minutes =
        ((true, (limit : Int) - 1),
          { st with store := rsetex st.store key (window_minutes * 60) 1 })) ∧
    (∀ current, rget st.store key = some current → current < limit →
      check_rate_limit st key limit window_minutes =
        ((true, (limit : Int) - current - 1), { st with store := rincr st.store key })) ∧
    (∀ current, rget st.store key = some current → limit ≤ current →
      check_rate_limit st key limit window_minutes = ((false, 0), st)) ∧
    (rget st.store key = none →
      (check_rate_limit
        (rlStep key 5 window_minutes (rlStep key 5 window_minutes
          (rlStep key 5 window_minutes (rlStep key 5 window_minutes
            (rlStep key 5 window_minutes st)))))
        key 5 window_minutes).1 = (false, 0)) ∧
    (∀ k', k' ≠ key →
      rget ((check_rate_limit st key limit window_minutes).2).store k' =
        rget st.store k') := by
  have hgen : ∀ (s : RLState), s.connected = true → s.failing = false →
      ∀ l, (rget s.store key = none →
        check_rate_limit s key l window_minutes =
          ((true, (l : Int) - 1),
            { s with store := rsetex s.store key (window_minutes * 60) 1 })) ∧
      (∀ current, rget s.store key = some current → current < l →
        check_rate_limit s key l window_minutes =
          ((true, (l : Int) - current - 1), { s with store := rincr s.store key })) ∧
      (∀ current, rget s.store key = some current → l ≤ current →
        check_rate_limit s key l window_minutes = ((false, 0), s)) := by
    intro s hsc hsf l
    refine ⟨?_, ?_, ?_⟩
    · intro h
      simp [check_rate_limit, hsc, hsf, h]
    · intro current hcur hlt
      simp [check_rate_limit, hsc, hsf, hcur, not_le.mpr hlt]
    · intro current hcur hle
      simp [check_rate_limit, hsc, hsf, hcur, hle]
  refine ⟨(hgen st hc hf limit).1, (hgen st hc hf limit).2.1, (hgen st hc hf limit).2.2, ?_, ?_⟩
  · intro h0
    have g1 : rget (rsetex st.store key (window_minutes * 60) 1) key = some 1 :=
      rget_rsetex_self st.store key _ 1
    have g2 : rget (rincr (rsetex st.store key (window_minutes * 60) 1) key) key =
        some 2 := by
      rw [rget_rincr_self, g1]
      rfl
    have g3 : rget (rincr (rincr (rsetex st.store key (window_minutes * 60) 1) key) key)
        key = some 3 := by
      rw [rget_rincr_self, g2]
      rfl
    have g4 : rget (rincr (rincr (rincr (rsetex st.store key (window_minutes * 60) 1)
        key) key) key) key = some 4 := by
      rw [rget_rincr_self, g3]
      rfl
    have g5 : rget (rincr (rincr (rincr (rincr (rsetex st.store key
        (window_minutes * 60) 1) key) key) key) key) key = some 5 := by
      rw [rget_rincr_self, g4]
      rfl
    have e1 : rlStep key 5 window_minutes st =
        { st with store := rsetex st.store key (window_minutes * 60) 1 } := by
      unfold rlStep
      rw [(hgen st hc hf 5).1 h0]
    have e2 : rlStep key 5 window_minutes
        { st with store := rsetex st.store key (window_minutes * 60) 1 } =
        { st with store := rincr (rsetex st.store key (window_minutes * 60) 1) key } := by
      unfold rlStep
      rw [(hgen { st with store := rsetex st.store key (window_minutes * 60) 1 }
        hc hf 5).2.1 1 g1 (by omega)]
    have e3 : rlStep key 5 window_minutes
        { st with store := (rincr (rsetex st.store key (window_minutes * 60) 1) key) } =
        { st with store := (rincr
          (rincr (rsetex st.store key (window_minutes * 60) 1) key) key) } := by
      unfold rlStep
      rw [(hgen { st with store := (rincr
        (rsetex st.store key (window_minutes * 60) 1) key) } hc hf 5).2.1 2 g2
        (by omega)]
    have e4 : rlStep key 5 window_minutes
        { st with store := (rincr
          (rincr (rsetex st.store key (window_minutes * 60) 1) key) key) } =
        { st with store := (rincr
          (rincr (rincr (rsetex st.store key (window_minutes * 60) 1) key) key) key) } := by
      unfold rlStep
      rw [(hgen { st with store := (rincr
        (rincr (rsetex st.store key (window_minutes * 60) 1) key) key) }
        hc hf 5).2.1 3 g3 (by omega)]
    have e5 : rlStep key 5 window_minutes
        { st with store := (rincr
          (rincr (rincr (rsetex st.store key (window_minutes * 60) 1) key) key) key) } =
        { st with store := (rincr
          (rincr (rincr (rincr (rsetex st.store key (window_minutes * 60) 1) key)
            key) key) key) } := by
      unfold rlStep
      rw [(hgen { st with store := (rincr
        (rincr (rincr (rsetex st.store key (window_minutes * 60) 1) key) key) key) }
        hc hf 5).2.1 4 g4 (by omega)]
    rw [e1, e2, e3, e4, e5,
      (hgen { st with store := (rincr
        (rincr (rincr (rincr (rsetex st.store key (window_minutes * 60) 1) key)
          key) key) key) } hc hf 5).2.2 5 g5 (by omega)]
  · intro k' hk
    unfold check_rate_limit
    rw [if_neg (by simp [hc]), if_neg (by simp [hf])]
    cases hg : rget st.store key with
    | none => simpa using rget_rsetex_other st.store key k' (window_minutes * 60) 1 hk
    | some current =>
      by_cases hlim : limit ≤ current
      · simp [hlim]
      · simpa [hlim] using rget_rincr_other st.store key k' hk

/-- Witness for C6: starting from an empty reachable store, six calls
with limit 5 for one key leave the 6th blocked with (false, 0). -/
theorem C6_witness :
    (check_rate_limit
      (rlStep "signup:203.0.113.5" 5 60 (rlStep "signup:203.0.113.5" 5 60
        (rlStep "signup:203.0.113.5" 5 60 (rlStep "signup:203.0.113.5" 5 60
          (rlStep "signup:203.0.113.5" 5 60 ⟨true, false, []⟩)))))
      "signup:203.0.113.5" 5 60).1 = (false, 0) :=
  (C6_fixed_window ⟨true, false, []⟩ "signup:203.0.113.5" 5 60 rfl rfl).2.2.2.1 rfl

/-- C7: with the counter store unreachable — no connection, or the
store operations raising — the limiter fails open, returning
(true, limit) and leaving the state untouched. -/
theorem C7_fail_open (st : RLState) (key : String) (limit window_minutes : Nat)
    (h : st.connected = false ∨ st.failing = true) :
    check_rate_limit st key limit window_minutes = ((true, (limit : Int)), st) := by
  rcases h with h | h
  · simp [check_rate_limit, h]
  · by_cases hc : st.connected = false
    · simp [check_rate_limit, hc]
    · simp [check_rate_limit, hc, h]

/-- Witness for C7 with a disconnected store. -/
theorem C7_witness :
    check_rate_limit ⟨false, false, []⟩ "login:203.0.113.5" 10 60 =
      ((true, 10), ⟨false, false, []⟩) :=
  C7_fail_open ⟨false, false, []⟩ "login:203.0.113.5" 10 60 (Or.inl rfl)

/-! ## Token lifecycle (backend/core/security.py and the refresh
endpoint of backend/server.py)

A `Token` stands for a JWT signed with the server's secret: its claims
are the subject, the optional role, the type discriminator and the
expiry timestamp. Forged strings — ones `jwt.decode` rejects for a bad
signature — are outside the type, so `decode_token` can only fail with
the expired-signature error. The SHA-256 digest `hash_token` is an
abstract function into a type `α`; theorems that rely on its
collision-freeness state the needed inequalities as hypotheses. -/

structure Token where
  sub : String
  role : Option String
  typ : String
  exp : Nat
  deriving DecidableEq

variable {α : Type} [DecidableEq α]

/-- Embedding of `create_access_token` with the default expiry,
called as `create_access_token({"sub": ..., "role": ...})`. -/
def create_access_token (sub role : String) (now : Nat) : Token :=
  { sub := sub, role := some role, typ := "access",
    exp := now + ACCESS_TOKEN_EXPIRE_MINUTES * 60 }

/-- Embedding of `create_refresh_token`, called as
`create_refresh_token({"sub": ...})`. -/
def create_refresh_token (sub : String) (now : Nat) : Token :=
  { sub := sub, role := none, typ := "refresh",
    exp := now + REFRESH_TOKEN_EXPIRE_DAYS * 24 * 60 * 60 }

/-- Embedding of `decode_token`: PyJWT treats a token as expired when
its exp claim is at or before the current time; otherwise the payload
comes back. -/
def decode_token (now : Nat) (t : Token) : Option Token :=
  if t.exp ≤ now then none else some t

/-- A document of the `refresh_tokens` collection. -/
structure RefreshRec (α : Type) where
  user_id : String
  refresh_token_hash : α
  created_at : Nat
  expires_at : Nat
  revoked : Bool
  ip_address : Option String
  user_agent : Option String
  deriving DecidableEq

/-- The record inserted for a freshly minted refresh token during
rotation (`new_refresh_token_doc` in `refresh_tokens`). -/
def newRefreshRec (hashT : Token → α) (nr : Token) (now : Nat) : RefreshRec α :=
  { user_id := nr.sub, refresh_token_hash := hashT nr, created_at := now,
    expires_at := now + REFRESH_TOKEN_EXPIRE_DAYS * 24 * 60 * 60, revoked := false,
    ip_address := none, user_agent := none }

/-- Error paths of the `/auth/refresh` endpoint. `tokenExpired` is the
decode step raising for a passed JWT expiry; the others match the
endpoint's own branches. -/
inductive RefreshErr where
  | tokenExpired
  | invalidTokenType
  | revokedOrUnknown
  | recordExpired
  | userNotFound
  deriving DecidableEq

/-- The stored-record query of the refresh endpoint:
`find_one({user_id, refresh_token_hash, revoked: False})`. -/
def liveFor (hashT : Token → α) (t : Token) (r : RefreshRec α) : Prop :=
  r.user_id = t.sub ∧ r.refresh_token_hash = hashT t ∧ r.revoked = false

instance (hashT : Token → α) (t : Token) (r : RefreshRec α) :
    Decidable (liveFor hashT t r) := by
  unfold liveFor
  infer_instance

/-- The lookup-and-rotate part of the endpoint, after decode and the
type check: find the first live record for the digest, check the stored
expiry, load the user, revoke the old record in place and append the
new one. -/
def rotateFind (hashT : Token → α) (users : List (String × String)) (now : Nat)
    (t : Token) : List (RefreshRec α) →
      Except RefreshErr (Token × Token) × List (RefreshRec α)
  | [] => (.error .revokedOrUnknown, [])
  | r :: rest =>
    if liveFor hashT t r then
      if r.expires_at < now then (.error .recordExpired, r :: rest)
      else
        match users.lookup t.sub with
        | none => (.error .userNotFound, r :: rest)
        | some role =>
          let na := create_access_token t.sub role now
          let nr := create_refresh_token t.sub now
          (.ok (na, nr),
            { r with revoked := true } :: rest ++ [newRefreshRec hashT nr now])
    else
      let p := rotateFind hashT users now t rest
      (p.1, r :: p.2)

/-- Embedding of the `/auth/refresh` endpoint `refresh_tokens`:
decode the presented token, require the refresh type discriminator,
then look up, expire-check, revoke and re-issue. The first component
is the issued (access, refresh) pair or the error raised, the second
the collection afterwards. -/
def refresh_tokens (hashT : Token → α) (users : List (String × String)) (now : Nat)
    (t : Token) (s : List (RefreshRec α)) :
    Except RefreshErr (Token × Token) × List (RefreshRec α) :=
  match decode_token now t with
  | none => (.error .tokenExpired, s)
  | some payload =>
    if payload.typ ≠ "refresh" then (.error .invalidTokenType, s)
    else rotateFind hashT users now t s

/-- Every rotation in a list of (time, presented token) calls, state
only. -/
def runRotations (hashT : Token → α) (users : List (String × String))
    (calls : List (Nat × Token)) (s : List (RefreshRec α)) : List (RefreshRec α) :=
  calls.foldl (fun st c => (refresh_tokens hashT users c.1 c.2 st).2) s

/-- No stored record would satisfy the endpoint's
`find_one({user_id, refresh_token_hash, revoked: False})` query for the
token `t`. -/
def noLive (hashT : Token → α) (t : Token) (s : List (RefreshRec α)) : Prop :=
  ∀ r ∈ s, ¬ liveFor hashT t r

theorem rotateFind_noLive (hashT : Token → α) (users : List (String × String))
    (now : Nat) (t : Token) (s : List (RefreshRec α)) (h : noLive hashT t s) :
    rotateFind hashT users now t s = (.error .revokedOrUnknown, s) := by
  induction s with
  | nil => rfl
  | cons r rest ih =>
    have hr : ¬ liveFor hashT t r := h r (List.mem_cons_self r rest)
    have hrest : noLive hashT t rest := fun r' h' => h r' (List.mem_cons_of_mem r h')
    simp [rotateFind, hr, ih hrest]

theorem rotateFind_append (hashT : Token → α) (users : List (String × String))
    (now : Nat) (t : Token) (pre : List (RefreshRec α))
    (hpre : ∀ r' ∈ pre, ¬ liveFor hashT t r') (s : List (RefreshRec α)) :
    rotateFind hashT users now t (pre ++ s) =
      ((rotateFind hashT users now t s).1, pre ++ (rotateFind hashT users now t s).2) := by
  induction pre with
  | nil => simp
  | cons r rest ih =>
    have hr : ¬ liveFor hashT t r := hpre r (List.mem_cons_self r rest)
    have hrest : ∀ r' ∈ rest, ¬ liveFor hashT t r' :=
      fun r' h' => hpre r' (List.mem_cons_of_mem r h')
    simp [rotateFind, hr, ih hrest]

theorem rotateFind_noLive_preserved (hashT : Token → α) (users : List (String × String))
    (now : Nat) (t' t : Token) (s : List (RefreshRec α))
    (h : noLive hashT t s)
    (hfresh : hashT (create_refresh_token t'.sub now) ≠ hashT t) :
    noLive hashT t (rotateFind hashT users now t' s).2 := by
  induction s with
  | nil => simpa [rotateFind] using h
  | cons r rest ih =>
    have hhead : ¬ liveFor hashT t r := h r (List.mem_cons_self r rest)
    have hrest : noLive hashT t rest := fun r' h' => h r' (List.mem_cons_of_mem r h')
    by_cases hl : liveFor hashT t' r
    · by_cases hexp : r.expires_at < now
      · simpa [rotateFind, hl, hexp] using h
      · cases hu : users.lookup t'.sub with
        | none => simpa [rotateFind, hl, hexp, hu] using h
        | some role =>
          simp only [rotateFind, if_pos hl, if_neg hexp, hu]
          intro r' hr'
          rcases List.mem_cons.mp hr' with h1 | h2
          · rw [h1]
            intro hlive
            exact absurd hlive.2.2 (by simp)
          · rcases List.mem_append.mp h2 with h3 | h4
            · exact hrest r' h3
            · have h5 : r' = newRefreshRec hashT (create_refresh_token t'.sub now) now := by
                simpa using h4
              rw [h5]
              intro hlive
              exact absurd hlive.2.1 (by simpa [newRefreshRec] using hfresh)
    · simp only [rotateFind, if_neg hl]
      intro r' hr'
      rcases List.mem_cons.mp hr' with h1 | h2
      · rw [h1]
        exact hhead
      · exact ih hrest r' h2

theorem refresh_tokens_noLive_preserved (hashT : Token → α)
    (users : List (String × String)) (now : Nat) (t' t : Token)
    (s : List (RefreshRec α)) (h : noLive hashT t s)
    (hfresh : hashT (create_refresh_token t'.sub now) ≠ hashT t) :
    noLive hashT t (refresh_tokens hashT users now t' s).2 := by
  unfold refresh_tokens
  cases hd : decode_token now t' with
  | none => simpa using h
  | some payload =>
    by_cases htyp : payload.typ ≠ "refresh"
    · simpa [htyp] using h
    · simp only [if_neg htyp]
      exact rotateFind_noLive_preserved hashT users now t' t s h hfresh

theorem runRotations_noLive (hashT : Token → α) (users : List (String × String))
    (t : Token) (calls : List (Nat × Token)) (s : List (RefreshRec α))
    (h : noLive hashT t s)
    (hfresh : ∀ c ∈ calls, hashT (create_refresh_token (c.2).sub c.1) ≠ hashT t) :
    noLive hashT t (runRotations hashT users calls s) := by
  induction calls generalizing s with
  | nil => simpa [runRotations] using h
  | cons c cs ih =>
    simp only [runRotations, List.foldl_cons]
    exact ih _
      (refresh_tokens_noLive_preserved hashT users c.1 c.2 t s h
        (hfresh c (List.mem_cons_self c cs)))
      (fun c' hc' => hfresh c' (List.mem_cons_of_mem c hc'))

theorem rotateFind_success_noLive (hashT : Token → α) (users : List (String × String))
    (now : Nat) (t : Token) (s : List (RefreshRec α))
    (pair : Token × Token) (s' : List (RefreshRec α))
    (h : rotateFind hashT users now t s = (.ok pair, s'))
    (huniq : (s.countP fun r => decide (liveFor hashT t r)) ≤ 1)
    (hfresh : hashT (create_refresh_token t.sub now) ≠ hashT t) :
    noLive hashT t s' := by
  induction s generalizing s' with
  | nil => simp [rotateFind] at h
  | cons r rest ih =>
    by_cases hl : liveFor hashT t r
    · by_cases hexp : r.expires_at < now
      · simp [rotateFind, hl, hexp] at h
      · cases hu : users.lookup t.sub with
        | none => simp [rotateFind, hl, hexp, hu] at h
        | some role =>
          simp only [rotateFind, if_pos hl, if_neg hexp, hu, Prod.mk.injEq] at h
          have hnone : ∀ r' ∈ rest, ¬ liveFor hashT t r' := by
            rw [List.countP_cons] at huniq
            simp only [decide_eq_true hl, if_true] at huniq
            simp at huniq
            intro r' h' hlive
            have h6 := huniq r' h'
            simp [hlive] at h6
          rw [← h.2]
          intro r' hr'
          rcases List.mem_cons.mp hr' with h1 | h2
          · rw [h1]
            intro hlive
            exact absurd hlive.2.2 (by simp)
          · rcases List.mem_append.mp h2 with h3 | h4
            · exact hnone r' h3
            · have h5 : r' = newRefreshRec hashT (create_refresh_token t.sub now) now := by
                simpa using h4
              rw [h5]
              intro hlive
              exact absurd hlive.2.1 (by simpa [newRefreshRec] using hfresh)
    · simp only [rotateFind, if_neg hl, Prod.mk.injEq] at h
      have hle : (rest.countP fun r => decide (liveFor hashT t r)) ≤ 1 := by
        rw [List.countP_cons] at huniq
        omega
      have hrec : rotateFind hashT users now t rest =
          (.ok pair, (rotateFind hashT users now t rest).2) := by
        rw [← h.1]
      have ihres := ih (rotateFind hashT users now t rest).2 hrec hle
      rw [← h.2]
      intro r' hr'
      rcases List.mem_cons.mp hr' with hh1 | hh2
      · rw [hh1]
        exact hl
      · exact ihres r' hh2

theorem refresh_tokens_unexpired (hashT : Token → α) (users : List (String × String))
    (now : Nat) (t : Token) (s : List (RefreshRec α)) (hdec : ¬ t.exp ≤ now) :
    refresh_tokens hashT users now t s =
      if t.typ ≠ "refresh" then (.error .invalidTokenType, s)
      else rotateFind hashT users now t s := by
  unfold refresh_tokens decode_token
  rw [if_neg hdec]

/-- C1: a refresh token rotates at most once. If a rotate call for the
presented token t succeeds (its stored record is revoked and a new
record inserted), then after any further sequence of rotate calls,
presenting t again while its JWT is still valid fails with
RevokedOrUnknown, issues no tokens and changes nothing. `huniq` says at
most one stored record matches the endpoint's live query for t, and the
freshness hypotheses say that no refresh token minted by these calls
collides with t's digest — both hold for a collision-free SHA-256 and
mint times distinct from t's own issuance second. -/
theorem C1_rotation_one_time (hashT : Token → α) (users : List (String × String))
    (s₀ : List (RefreshRec α)) (t : Token) (now₀ : Nat)
    (pair : Token × Token) (s₁ : List (RefreshRec α))
    (hrot : refresh_tokens hashT users now₀ t s₀ = (.ok pair, s₁))
    (huniq : (s₀.countP fun r => decide (liveFor hashT t r)) ≤ 1)
    (hfresh₀ : hashT (create_refresh_token t.sub now₀) ≠ hashT t)
    (calls : List (Nat × Token))
    (hfresh : ∀ c ∈ calls, hashT (create_refresh_token (c.2).sub c.1) ≠ hashT t)
    (now' : Nat) (hval : now' < t.exp) :
    refresh_tokens hashT users now' t (runRotations hashT users calls s₁) =
      (.error .revokedOrUnknown, runRotations hashT users calls s₁) := by
  have hne₀ : ¬ t.exp ≤ now₀ := by
    by_cases h : t.exp ≤ now₀
    · unfold refresh_tokens decode_token at hrot
      rw [if_pos h] at hrot
      simp at hrot
    · exact h
  have hstep₀ := refresh_tokens_unexpired hashT users now₀ t s₀ hne₀
  have htyp : t.typ = "refresh" := by
    by_cases h : t.typ = "refresh"
    · exact h
    · rw [hstep₀, if_pos h] at hrot
      simp at hrot
  have hfind : rotateFind hashT users now₀ t s₀ = (.ok pair, s₁) := by
    rw [hstep₀, if_neg (not_not_intro htyp)] at hrot
    exact hrot
  have h₁ : noLive hashT t s₁ :=
    rotateFind_success_noLive hashT users now₀ t s₀ pair s₁ hfind huniq hfresh₀
  have h₂ : noLive hashT t (runRotations hashT users calls s₁) :=
    runRotations_noLive hashT users t calls s₁ h₁ hfresh
  rw [refresh_tokens_unexpired hashT users now' t _ (by omega),
    if_neg (not_not_intro htyp)]
  exact rotateFind_noLive hashT users now' t _ h₂

/-- Concrete refresh token and stored record for the C1 and C5
witnesses; the digest function is the identity on tokens, which is
injective, so the freshness hypotheses hold by computation. -/
def tokW : Token := { sub := "alice", role := none, typ := "refresh", exp := 1000 }

def recW : RefreshRec Token :=
  { user_id := "alice", refresh_token_hash := tokW, created_at := 0, expires_at := 2000,
    revoked := false, ip_address := none, user_agent := none }

/-- Witness for C1: rotate tokW once at time 10 against its live
record, then present it again at time 20 — RevokedOrUnknown. -/
theorem C1_witness :
    refresh_tokens (fun tk : Token => tk) [("alice", "customer")] 20 tokW
      (runRotations (fun tk : Token => tk) [("alice", "customer")] []
        (refresh_tokens (fun tk : Token => tk) [("alice", "customer")] 10 tokW [recW]).2) =
      (.error .revokedOrUnknown,
        runRotations (fun tk : Token => tk) [("alice", "customer")] []
          (refresh_tokens (fun tk : Token => tk) [("alice", "customer")] 10 tokW
            [recW]).2) :=
  C1_rotation_one_time (fun tk : Token => tk) [("alice", "customer")] [recW] tokW 10
    (create_access_token "alice" "customer" 10, create_refresh_token "alice" 10)
    (refresh_tokens (fun tk : Token => tk) [("alice", "customer")] 10 tokW [recW]).2
    (by rfl) (by decide) (by decide) [] (by simp) 20 (by decide)

/-- C5: a rotate call presenting a refresh token whose stored record
(the first one the live query finds) has `expires_at` in the past fails
with an Expired-kind error — the record-expiry branch, or the decode
step when the token's own exp claim has passed too — and leaves the
collection unchanged: nothing is revoked, nothing inserted, no tokens
issued. -/
theorem C5_rotate_expired_record (hashT : Token → α) (users : List (String × String))
    (pre post : List (RefreshRec α)) (r : RefreshRec α) (t : Token) (now : Nat)
    (hpre : ∀ r' ∈ pre, ¬ liveFor hashT t r')
    (hr : liveFor hashT t r)
    (htyp : t.typ = "refresh")
    (hexp : r.expires_at < now) :
    ∃ e, refresh_tokens hashT users now t (pre ++ r :: post) =
        (.error e, pre ++ r :: post) ∧
      (e = RefreshErr.recordExpired ∨ e = RefreshErr.tokenExpired) := by
  by_cases hdec : t.exp ≤ now
  · refine ⟨.tokenExpired, ?_, Or.inr rfl⟩
    unfold refresh_tokens decode_token
    rw [if_pos hdec]
  · refine ⟨.recordExpired, ?_, Or.inl rfl⟩
    rw [refresh_tokens_unexpired hashT users now t _ hdec,
      if_neg (not_not_intro htyp),
      rotateFind_append hashT users now t pre hpre]
    simp [rotateFind, hr, hexp]

/-- A stored record that expired at time 5. -/
def recExpW : RefreshRec Token :=
  { user_id := "alice", refresh_token_hash := tokW, created_at := 0, expires_at := 5,
    revoked := false, ip_address := none, user_agent := none }

/-- Witness for C5: presenting tokW at time 10 against its expired
record fails with an Expired-kind error and mutates nothing. -/
theorem C5_witness :
    ∃ e, refresh_tokens (fun tk : Token => tk) [("alice", "customer")] 10 tokW
        ([] ++ recExpW :: []) = (.error e, [] ++ recExpW :: []) ∧
      (e = RefreshErr.recordExpired ∨ e = RefreshErr.tokenExpired) :=
  C5_rotate_expired_record (fun tk : Token => tk) [("alice", "customer")] [] [] recExpW
    tokW 10 (by simp) (by decide) rfl (by decide)

/-! ## Authentication flow orchestration (backend/server.py)

Credential documents of the `users` collection carry a MongoDB id,
modelled as a Nat allocated from a counter, so that the rollback's
`delete_one({"_id": inserted_id})` removes exactly the inserted
document. The bcrypt password digest is abstract (`γ`). -/

variable {γ : Type} [DecidableEq γ]

structure UserDoc (γ : Type) where
  username : String
  email : Option String
  phone : Option String
  password_hash : γ
  role : String
  is_active : Bool
  is_verified : Bool
  created_at : Nat
  updated_at : Nat
  deriving DecidableEq

structure SignupReq where
  username : String
  email : Option String
  phone : Option String
  password : String
  role : String
  deriving DecidableEq

/-- State the signup endpoint touches: the users collection with its id
counter, the otps collection, and the rate-limit store. -/
structure SignupState (β γ : Type) where
  users : List (Nat × UserDoc γ)
  nextId : Nat
  otps : List (OTPRec β)
  rl : RLState

inductive SignupResult where
  | created (target : String)
  | rateLimited
  | usernameExists
  | emailExists
  | phoneExists
  | otpSendFailed
  deriving DecidableEq

/-- The duplicate-email check, run only when the request carries an
email. -/
def emailTaken (users : List (Nat × UserDoc γ)) : Option String → Bool
  | none => false
  | some e => users.any (fun u => u.2.email == some e)

/-- The duplicate-phone check, run only when the request carries a
phone. -/
def phoneTaken (users : List (Nat × UserDoc γ)) : Option String → Bool
  | none => false
  | some p => users.any (fun u => u.2.phone == some p)

/-- Embedding of the `/auth/signup` endpoint: rate limit by client ip,
reject duplicate username/email/phone, insert the unverified user
document, then issue the signup OTP; if issuing fails, delete the
freshly inserted document by its id before surfacing the failure. -/
def signup (hashO : String → β) (hashP : String → γ) (now : Nat) (ip : String)
    (req : SignupReq) (code : String) (outcome : OtpIssueOutcome)
    (st : SignupState β γ) : SignupResult × SignupState β γ :=
  let rl := check_rate_limit st.rl ("signup:" ++ ip) 5 60
  let st₁ : SignupState β γ := { st with rl := rl.2 }
  if rl.1.1 = false then (.rateLimited, st₁)
  else if st₁.users.any (fun u => u.2.username == req.username) then (.usernameExists, st₁)
  else if emailTaken st₁.users req.email then (.emailExists, st₁)
  else if phoneTaken st₁.users req.phone then (.phoneExists, st₁)
  else
    let doc : UserDoc γ :=
      { username := req.username, email := req.email, phone := req.phone,
        password_hash := hashP req.password, role := req.role, is_active := true,
        is_verified := false, created_at := now, updated_at := now }
    let target := req.email.getD (req.phone.getD req.username)
    let issue := create_and_send_otp hashO now target "signup" code st₁.otps outcome
    if issue.1 then
      (.created target,
        { st₁ with
          users := st₁.users ++ [(st₁.nextId, doc)], nextId := st₁.nextId + 1,
          otps := issue.2 })
    else
      (.otpSendFailed,
        { st₁ with
          users := ((st₁.users ++ [(st₁.nextId, doc)]).filter fun u => !(u.1 == st₁.nextId)),
          nextId := st₁.nextId + 1, otps := issue.2 })

omit [DecidableEq β] [DecidableEq γ] in
/-- C8: whenever signup reaches the credential insert (rate limit
passed, no duplicate username/email/phone) and OTP issuance then fails,
the endpoint deletes the record it just created before returning the
failure: the users collection afterwards is exactly what it was before
the call. -/
theorem C8_signup_rollback (hashO : String → β) (hashP : String → γ) (now : Nat)
    (ip : String) (req : SignupReq) (code : String) (outcome : OtpIssueOutcome)
    (st : SignupState β γ)
    (hrl : (check_rate_limit st.rl ("signup:" ++ ip) 5 60).1.1 = true)
    (huser : st.users.any (fun u => u.2.username == req.username) = false)
    (hemail : emailTaken st.users req.email = false)
    (hphone : phoneTaken st.users req.phone = false)
    (hfresh : ∀ u ∈ st.users, u.1 ≠ st.nextId)
    (hfail : outcome ≠ .ok) :
    (signup hashO hashP now ip req code outcome st).1 = .otpSendFailed ∧
    (signup hashO hashP now ip req code outcome st).2.users = st.users := by
  have hfil : ∀ (d : UserDoc γ),
      ((st.users ++ [(st.nextId, d)]).filter fun u => !(u.1 == st.nextId)) = st.users := by
    intro d
    rw [List.filter_append]
    have h1 : st.users.filter (fun u => !(u.1 == st.nextId)) = st.users :=
      List.filter_eq_self.mpr (by
        intro u hu
        simpa using hfresh u hu)
    have h2 : ([(st.nextId, d)].filter fun u => !(u.1 == st.nextId)) = [] := by
      simp
    rw [h1, h2, List.append_nil]
  have hno : (create_and_send_otp hashO now (req.email.getD (req.phone.getD req.username))
      "signup" code st.otps outcome).1 = false := by
    cases outcome with
    | ok => exact absurd rfl hfail
    | failBeforeStore => rfl
    | failAfterDelete => rfl
    | failAfterInsert => rfl
  constructor <;>
    simp [signup, hrl, huser, hemail, hphone, hno, hfil]

/-- Witness for C8 from the empty state with a disconnected limiter
(which allows the request) and issuance failing after the store step. -/
theorem C8_witness :
    (signup (fun s => s) (fun s => s) 0 "203.0.113.5"
      { username := "alice", email := some "a@x.com", phone := none,
        password := "secret1", role := "customer" }
      "111111" .failAfterInsert
      { users := [], nextId := 0, otps := [], rl := ⟨false, false, []⟩ }).1 =
        .otpSendFailed ∧
    (signup (fun s => s) (fun s => s) 0 "203.0.113.5"
      { username := "alice", email := some "a@x.com", phone := none,
        password := "secret1", role := "customer" }
      "111111" .failAfterInsert
      { users := [], nextId := 0, otps := [], rl := ⟨false, false, []⟩ }).2.users = [] :=
  C8_signup_rollback (fun s => s) (fun s => s) 0 "203.0.113.5"
    { username := "alice", email := some "a@x.com", phone := none,
      password := "secret1", role := "customer" }
    "111111" .failAfterInsert
    { users := [], nextId := 0, otps := [], rl := ⟨false, false, []⟩ }
    (by rfl) (by rfl) (by rfl) (by rfl) (by simp) (by decide)

/-- Request body of the verify-signup and login-verify-otp endpoints
(`OTPVerify` in backend/models/otp.py): the purpose is client-supplied. -/
structure OTPVerifyReq where
  target : String
  otp : String
  purpose : String
  deriving DecidableEq

inductive VerifySignupResult where
  | verified
  | otpFailed (r : OtpResult)
  | userNotFound
  deriving DecidableEq

/-- The user query of verify-signup:
`find_one({"$or": [{email}, {phone}, {username}]})` on the target. -/
def targetMatches (target : String) (u : UserDoc γ) : Bool :=
  u.email == some target || u.phone == some target || u.username == target

/-- Embedding of the `/auth/verify-signup` endpoint: verify the OTP —
with the purpose taken from the request body — then look the user up by
email, phone or username and set `is_verified` on the matched document.
Returns the outcome, the users collection and the otps collection. -/
def verify_signup (hashO : String → β) (now : Nat) (req : OTPVerifyReq)
    (users : List (Nat × UserDoc γ)) (otps : List (OTPRec β)) :
    VerifySignupResult × List (Nat × UserDoc γ) × List (OTPRec β) :=
  let v := verify_otp hashO now req.target req.otp req.purpose otps
  if v.1 ≠ .success then (.otpFailed v.1, users, v.2)
  else
    match users.find? (fun u => targetMatches req.target u.2) with
    | none => (.userNotFound, users, v.2)
    | some iu =>
        (.verified,
          (users.map fun u => if u.1 == iu.1 then
            (u.1, { u.2 with is_verified := true, updated_at := now }) else u),
          v.2)

/-- Stored login-purpose OTP for the C9 counterexample: code 123456
hashed with the identity digest. -/
def otpLoginW : OTPRec String :=
  { target := "a@x.com", otp_hash := "123456", purpose := "login",
    attempts := 0, created_at := 0, expires_at := 300 }

/-- An unverified credential document for alice. -/
def aliceDocW : UserDoc String :=
  { username := "alice", email := some "a@x.com", phone := none,
    password_hash := "ph", role := "customer", is_active := true,
    is_verified := false, created_at := 0, updated_at := 0 }

/-- C9 counterexample: a verify-signup request may carry any purpose —
here "login" — and the endpoint verifies the OTP for that purpose. With
only a login-purpose OTP stored (no signup-purpose OTP exists at all),
the verify-signup call succeeds and marks alice verified, so the claim
that the OTP is verified for purpose signup fails. -/
theorem C9_counterexample :
    (∀ r ∈ [otpLoginW], r.purpose ≠ "signup") ∧
    (verify_signup (fun s => s) 10
        { target := "a@x.com", otp := "123456", purpose := "login" }
        [(0, aliceDocW)] [otpLoginW]).1 = .verified ∧
    ((verify_signup (fun s => s) 10
        { target := "a@x.com", otp := "123456", purpose := "login" }
        [(0, aliceDocW)] [otpLoginW]).2.1.map fun u => u.2.is_verified) = [true] := by
  refine ⟨by decide, by rfl, by rfl⟩

omit [DecidableEq γ] in
/-- C9 as amended: verify-signup verifies the OTP for the purpose
supplied in the request (the intended flow sends signup, but the
endpoint does not pin it), and only on successful verification — and a
matched user — does it set that user's `is_verified` to true; on any
verification failure the users collection is untouched. -/
theorem C9_verify_signup_amended (hashO : String → β) (now : Nat) (req : OTPVerifyReq)
    (users : List (Nat × UserDoc γ)) (otps : List (OTPRec β)) :
    (verify_signup hashO now req users otps).2.2 =
      (verify_otp hashO now req.target req.otp req.purpose otps).2 ∧
    ((verify_otp hashO now req.target req.otp req.purpose otps).1 ≠ .success →
      (verify_signup hashO now req users otps).1 =
        .otpFailed (verify_otp hashO now req.target req.otp req.purpose otps).1 ∧
      (verify_signup hashO now req users otps).2.1 = users) ∧
    ((verify_signup hashO now req users otps).1 = .verified →
      (verify_otp hashO now req.target req.otp req.purpose otps).1 = .success) ∧
    (∀ iu, (verify_otp hashO now req.target req.otp req.purpose otps).1 = .success →
      users.find? (fun u => targetMatches req.target u.2) = some iu →
      (verify_signup hashO now req users otps).2.1 =
        (users.map fun u => if u.1 == iu.1 then
          (u.1, { u.2 with is_verified := true, updated_at := now }) else u)) := by
  by_cases hs : (verify_otp hashO now req.target req.otp req.purpose otps).1 = .success
  · cases hf : users.find? (fun u => targetMatches req.target u.2) with
    | none =>
        refine ⟨?_, ?_, ?_, ?_⟩
        · simp [verify_signup, hs, hf]
        · intro hns
          exact absurd hs hns
        · intro hv
          exact hs
        · intro iu hsucc hfind
          cases hfind
    | some iu₀ =>
        refine ⟨?_, ?_, ?_, ?_⟩
        · simp [verify_signup, hs, hf]
        · intro hns
          exact absurd hs hns
        · intro hv
          exact hs
        · intro iu hsucc hfind
          cases hfind
          simp [verify_signup, hs, hf]
  · refine ⟨?_, ?_, ?_, ?_⟩
    · simp [verify_signup, hs]
    · intro hns
      constructor <;> simp [verify_signup, hs]
    · intro hv
      exfalso
      have : (verify_signup hashO now req users otps).1 =
          .otpFailed (verify_otp hashO now req.target req.otp req.purpose otps).1 := by
        simp [verify_signup, hs]
      rw [this] at hv
      cases hv
    · intro iu hsucc hfind
      exact absurd hsucc hs

/-- Stored signup-purpose OTP for the amended-claim witness. -/
def otpSignupW : OTPRec String :=
  { target := "a@x.com", otp_hash := "654321", purpose := "signup",
    attempts := 0, created_at := 0, expires_at := 300 }

/-- Witness for the amended C9: the intended flow with a signup-purpose
OTP and the correct code marks alice verified. -/
theorem C9_amended_witness :
    (verify_signup (fun s => s) 10
        { target := "a@x.com", otp := "654321", purpose := "signup" }
        [(0, aliceDocW)] [otpSignupW]).2.1 =
      ([(0, aliceDocW)].map fun u => if u.1 == 0 then
        (u.1, { u.2 with is_verified := true, updated_at := 10 }) else u) :=
  (C9_verify_signup_amended (fun s => s) 10
      { target := "a@x.com", otp := "654321", purpose := "signup" }
      [(0, aliceDocW)] [otpSignupW]).2.2.2 (0, aliceDocW) (by rfl) (by rfl)

/-! ## Password hashing (backend/core/security.py)

The bcrypt primitives are abstract: `hashpw` maps a byte string to a
digest (the salt is folded into the abstraction) and `checkpw` accepts
a byte string against a digest, with the contract that a digest
verifies against the bytes it was produced from. `hash_password` and
`verify_password` byte-encode the password as UTF-8 and truncate to 72
bytes exactly as the source does before calling bcrypt. -/

/-- UTF-8 encoding of one character, the bytes `str.encode("utf-8")`
produces per code point. -/
def utf8Char (c : Char) : List Nat :=
  let n := c.toNat
  if n < 128 then [n]
  else if n < 2048 then [192 + n / 64, 128 + n % 64]
  else if n < 65536 then [224 + n / 4096, 128 + (n / 64) % 64, 128 + n % 64]
  else [240 + n / 262144, 128 + (n / 4096) % 64, 128 + (n / 64) % 64, 128 + n % 64]

/-- UTF-8 encoding of a password string (`password.encode("utf-8")`). -/
def utf8Encode (s : String) : List Nat :=
  (s.data.map utf8Char).flatten

/-- The 72-byte cap both password functions apply:
`if len(password_bytes) > 72: password_bytes = password_bytes[:72]`. -/
def truncate72 (b : List Nat) : List Nat :=
  if 72 < b.length then b.take 72 else b

variable {δ : Type}

/-- Embedding of `hash_password`: truncate the UTF-8 bytes, then
bcrypt-hash them. -/
def hash_password (hashpw : List Nat → δ) (p : String) : δ :=
  hashpw (truncate72 (utf8Encode p))

/-- Embedding of `verify_password`: truncate the UTF-8 bytes, then
bcrypt-check them against the stored digest. -/
def verify_password (checkpw : List Nat → δ → Bool) (p : String) (h : δ) : Bool :=
  checkpw (truncate72 (utf8Encode p)) h

theorem truncate72_eq_take (b : List Nat) : truncate72 b = b.take 72 := by
  unfold truncate72
  by_cases h : 72 < b.length
  · rw [if_pos h]
  · rw [if_neg h, List.take_of_length_le (not_lt.mp h)]

/-- C10: password hashing and verification see only the first 72 bytes
of the UTF-8 encoding. A long password is truncated before bcrypt runs,
and any two passwords agreeing on their first 72 bytes verify against
each other's hashes, for every bcrypt pair satisfying its round-trip
contract. -/
theorem C10_password_truncation (hashpw : List Nat → δ) (checkpw : List Nat → δ → Bool)
    (hbc : ∀ b, checkpw b (hashpw b) = true) :
    (∀ p : String, 72 < (utf8Encode p).length →
      hash_password hashpw p = hashpw ((utf8Encode p).take 72)) ∧
    (∀ p₁ p₂ : String, (utf8Encode p₁).take 72 = (utf8Encode p₂).take 72 →
      verify_password checkpw p₁ (hash_password hashpw p₂) = true) := by
  constructor
  · intro p hp
    unfold hash_password
    rw [truncate72_eq_take]
  · intro p₁ p₂ hpre
    unfold verify_password hash_password
    rw [truncate72_eq_take, truncate72_eq_take, hpre]
    exact hbc _

/-- Witness for C10: 73 letters a, against 72 letters a followed by b —
over-72-byte passwords agreeing on the first 72 bytes — verify against
each other's hashes with bcrypt instantiated as the identity pair. -/
theorem C10_witness :
    verify_password (fun b h => b == h) (String.mk (List.replicate 73 'a'))
      (hash_password (fun b : List Nat => b)
        (String.mk (List.replicate 72 'a' ++ ['b']))) = true :=
  (C10_password_truncation (fun b : List Nat => b) (fun b h => b == h)
      (fun b => beq_self_eq_true b)).2 _ _ (by decide)

end Auth
